import Mathlib

/-!
Shallow embedding of `src/app/models.py`: the curriculum schema of the
ai-bootcamp-generator repository (SQLModel entities, create / update /
response shapes) together with the storage-level operations (insert,
delete with cascade, partial update, projection) that the declarations
of the schema describe.

Field sets, numeric bounds (`ge` / `le`), string length bounds
(`max_length`) and defaults are translated directly from the source
declarations.  Operational behaviour that the repository only declares
(pydantic validation enforcement, SQL cascade deletes, update merging,
response projection) is modelled from the spec; each such definition
carries a doc comment saying so.
-/

/-- Enum `DifficultyLevel` from models.py: beginner | intermediate | advanced. -/
inductive DifficultyLevel where
  | BEGINNER
  | INTERMEDIATE
  | ADVANCED
deriving DecidableEq, Repr

/-- Enum `MaterialType` from models.py. -/
inductive MaterialType where
  | TEXT
  | VIDEO
  | AUDIO
  | PDF
  | IMAGE
  | INTERACTIVE
deriving DecidableEq, Repr

/-- Enum `QuestionType` from models.py. -/
inductive QuestionType where
  | MULTIPLE_CHOICE
  | TRUE_FALSE
  | SHORT_ANSWER
  | ESSAY
  | CODING
deriving DecidableEq, Repr

/-- Enum `GenerationStatus` from models.py: pending | generating | completed | failed. -/
inductive GenerationStatus where
  | PENDING
  | GENERATING
  | COMPLETED
  | FAILED
deriving DecidableEq, Repr

/-- Timestamps (`datetime` in the source) are modelled as an abstract tick count. -/
abbrev Datetime := Nat

/-- Persistent model `Bootcamp` (table "bootcamps").  The `courses`
relationship (declared `cascade_delete=True` in the source) is represented
through the `bootcamp_id` foreign key of `Course` rows in the `DB` state. -/
structure Bootcamp where
  id : Option Nat := none
  title : String
  topic : String
  description : String := ""
  difficulty_level : DifficultyLevel := .BEGINNER
  estimated_duration_hours : Int := 40
  learning_objectives : List String := []
  prerequisites : List String := []
  tags : List String := []
  generation_status : GenerationStatus := .PENDING
  generation_prompt : String := ""
  created_at : Datetime
  updated_at : Datetime
deriving DecidableEq, Repr

/-- Persistent model `Course` (table "courses"); `lessons` relationship is
`cascade_delete=True` in the source. -/
structure Course where
  id : Option Nat := none
  bootcamp_id : Nat
  title : String
  description : String := ""
  order_index : Int
  estimated_duration_hours : Int := 8
  learning_outcomes : List String := []
  created_at : Datetime
deriving DecidableEq, Repr

/-- Persistent model `Lesson` (table "lessons"); `materials` and `quizzes`
relationships are `cascade_delete=True` in the source. -/
structure Lesson where
  id : Option Nat := none
  course_id : Nat
  title : String
  content : String := ""
  summary : String := ""
  order_index : Int
  estimated_duration_minutes : Int := 60
  key_concepts : List String := []
  created_at : Datetime
deriving DecidableEq, Repr

/-- Persistent model `LearningMaterial` (table "learning_materials").
The free-form `material_metadata` JSON map is modelled as an association list. -/
structure LearningMaterial where
  id : Option Nat := none
  lesson_id : Nat
  title : String
  description : String := ""
  material_type : MaterialType := .TEXT
  content : String := ""
  url : Option String := none
  file_path : Option String := none
  order_index : Int
  material_metadata : List (String × String) := []
  created_at : Datetime
deriving DecidableEq, Repr

/-- Persistent model `Quiz` (table "quizzes").  Both parent foreign keys are
optional in the source; only the `lesson` relationship carries a cascade
(`Lesson.quizzes` is `cascade_delete=True`) — there is no relationship from
`Bootcamp` to its directly attached quizzes. -/
structure Quiz where
  id : Option Nat := none
  lesson_id : Option Nat := none
  bootcamp_id : Option Nat := none
  title : String
  description : String := ""
  is_exam : Bool := false
  time_limit_minutes : Option Int := none
  passing_score_percentage : Int := 70
  max_attempts : Int := 3
  order_index : Int
  created_at : Datetime
deriving DecidableEq, Repr

/-- Persistent model `Question` (table "questions"). -/
structure Question where
  id : Option Nat := none
  quiz_id : Nat
  question_text : String
  question_type : QuestionType := .MULTIPLE_CHOICE
  options : List String := []
  correct_answers : List String := []
  explanation : String := ""
  points : Int := 1
  order_index : Int
  difficulty_level : DifficultyLevel := .BEGINNER
  tags : List String := []
  created_at : Datetime
deriving DecidableEq, Repr

/-- Bound checks declared on `Bootcamp` fields in the source:
`title` max 200, `topic` max 100, `description` max 2000,
`estimated_duration_hours` in [1,1000], `generation_prompt` max 5000. -/
@[reducible] def Bootcamp.valid (b : Bootcamp) : Prop :=
  b.title.length ≤ 200 ∧ b.topic.length ≤ 100 ∧ b.description.length ≤ 2000 ∧
  1 ≤ b.estimated_duration_hours ∧ b.estimated_duration_hours ≤ 1000 ∧
  b.generation_prompt.length ≤ 5000

/-- Bound checks declared on `Course` fields: `title` max 200, `description`
max 2000, `order_index ≥ 0`, `estimated_duration_hours` in [1,100]. -/
@[reducible] def Course.valid (c : Course) : Prop :=
  c.title.length ≤ 200 ∧ c.description.length ≤ 2000 ∧
  0 ≤ c.order_index ∧ 1 ≤ c.estimated_duration_hours ∧ c.estimated_duration_hours ≤ 100

/-- Bound checks declared on `Lesson` fields: `title` max 200, `summary`
max 1000, `order_index ≥ 0`, `estimated_duration_minutes` in [1,480]. -/
@[reducible] def Lesson.valid (l : Lesson) : Prop :=
  l.title.length ≤ 200 ∧ l.summary.length ≤ 1000 ∧
  0 ≤ l.order_index ∧ 1 ≤ l.estimated_duration_minutes ∧ l.estimated_duration_minutes ≤ 480

/-- Bound checks declared on `LearningMaterial` fields: `title` max 200,
`description` max 1000, `url` / `file_path` max 500 when set, `order_index ≥ 0`. -/
@[reducible] def LearningMaterial.valid (m : LearningMaterial) : Prop :=
  m.title.length ≤ 200 ∧ m.description.length ≤ 1000 ∧
  (∀ u, m.url = some u → u.length ≤ 500) ∧
  (∀ f, m.file_path = some f → f.length ≤ 500) ∧
  0 ≤ m.order_index

/-- Bound checks declared on `Quiz` fields: `title` max 200, `description`
max 1000, `time_limit_minutes` in [1,300] when set,
`passing_score_percentage` in [0,100], `max_attempts` in [1,10],
`order_index ≥ 0`.  Note: nothing constrains `lesson_id` / `bootcamp_id`. -/
@[reducible] def Quiz.valid (q : Quiz) : Prop :=
  q.title.length ≤ 200 ∧ q.description.length ≤ 1000 ∧
  (∀ t, q.time_limit_minutes = some t → 1 ≤ t ∧ t ≤ 300) ∧
  0 ≤ q.passing_score_percentage ∧ q.passing_score_percentage ≤ 100 ∧
  1 ≤ q.max_attempts ∧ q.max_attempts ≤ 10 ∧
  0 ≤ q.order_index

/-- Bound checks declared on `Question` fields: `question_text` max 2000,
`explanation` max 1000, `points` in [1,10], `order_index ≥ 0`. -/
@[reducible] def Question.valid (qu : Question) : Prop :=
  qu.question_text.length ≤ 2000 ∧ qu.explanation.length ≤ 1000 ∧
  1 ≤ qu.points ∧ qu.points ≤ 10 ∧ 0 ≤ qu.order_index

/-- Create shape `BootcampCreate` (table=False): the fields a caller may
supply for a new bootcamp, with the defaults declared in the source. -/
structure BootcampCreate where
  title : String
  topic : String
  description : String := ""
  difficulty_level : DifficultyLevel := .BEGINNER
  estimated_duration_hours : Int := 40
  learning_objectives : List String := []
  prerequisites : List String := []
  tags : List String := []
  generation_prompt : String := ""
deriving DecidableEq, Repr

/-- Partial-update shape `BootcampUpdate` (table=False): every field optional,
`none` meaning "leave unchanged". -/
structure BootcampUpdate where
  title : Option String := none
  description : Option String := none
  difficulty_level : Option DifficultyLevel := none
  estimated_duration_hours : Option Int := none
  learning_objectives : Option (List String) := none
  prerequisites : Option (List String) := none
  tags : Option (List String) := none
  generation_status : Option GenerationStatus := none
deriving DecidableEq, Repr

/-- Create shape `CourseCreate` (table=False). -/
structure CourseCreate where
  bootcamp_id : Nat
  title : String
  description : String := ""
  order_index : Int
  estimated_duration_hours : Int := 8
  learning_outcomes : List String := []
deriving DecidableEq, Repr

/-- Create shape `LessonCreate` (table=False). -/
structure LessonCreate where
  course_id : Nat
  title : String
  content : String := ""
  summary : String := ""
  order_index : Int
  estimated_duration_minutes : Int := 60
  key_concepts : List String := []
deriving DecidableEq, Repr

/-- Create shape `LearningMaterialCreate` (table=False). -/
structure LearningMaterialCreate where
  lesson_id : Nat
  title : String
  description : String := ""
  material_type : MaterialType := .TEXT
  content : String := ""
  url : Option String := none
  file_path : Option String := none
  order_index : Int
  material_metadata : List (String × String) := []
deriving DecidableEq, Repr

/-- Create shape `QuizCreate` (table=False): both parent ids optional,
nothing requires exactly one of them. -/
structure QuizCreate where
  lesson_id : Option Nat := none
  bootcamp_id : Option Nat := none
  title : String
  description : String := ""
  is_exam : Bool := false
  time_limit_minutes : Option Int := none
  passing_score_percentage : Int := 70
  max_attempts : Int := 3
  order_index : Int
deriving DecidableEq, Repr

/-- Create shape `QuestionCreate` (table=False). -/
structure QuestionCreate where
  quiz_id : Nat
  question_text : String
  question_type : QuestionType := .MULTIPLE_CHOICE
  options : List String := []
  correct_answers : List String := []
  explanation : String := ""
  points : Int := 1
  order_index : Int
  difficulty_level : DifficultyLevel := .BEGINNER
  tags : List String := []
deriving DecidableEq, Repr

/-- Bound checks declared on `BootcampCreate` (same `ge`/`le`/`max_length`
constraints as the persistent shape). -/
@[reducible] def BootcampCreate.valid (c : BootcampCreate) : Prop :=
  c.title.length ≤ 200 ∧ c.topic.length ≤ 100 ∧ c.description.length ≤ 2000 ∧
  1 ≤ c.estimated_duration_hours ∧ c.estimated_duration_hours ≤ 1000 ∧
  c.generation_prompt.length ≤ 5000

/-- Bound checks declared on `BootcampUpdate`: each set field is checked
against the same bounds as the persistent shape. -/
@[reducible] def BootcampUpdate.valid (u : BootcampUpdate) : Prop :=
  (∀ t, u.title = some t → t.length ≤ 200) ∧
  (∀ d, u.description = some d → d.length ≤ 2000) ∧
  (∀ h, u.estimated_duration_hours = some h → 1 ≤ h ∧ h ≤ 1000)

/-- Bound checks declared on `CourseCreate`. -/
@[reducible] def CourseCreate.valid (c : CourseCreate) : Prop :=
  c.title.length ≤ 200 ∧ c.description.length ≤ 2000 ∧
  0 ≤ c.order_index ∧ 1 ≤ c.estimated_duration_hours ∧ c.estimated_duration_hours ≤ 100

/-- Bound checks declared on `LessonCreate`. -/
@[reducible] def LessonCreate.valid (c : LessonCreate) : Prop :=
  c.title.length ≤ 200 ∧ c.summary.length ≤ 1000 ∧
  0 ≤ c.order_index ∧ 1 ≤ c.estimated_duration_minutes ∧ c.estimated_duration_minutes ≤ 480

/-- Bound checks declared on `LearningMaterialCreate`. -/
@[reducible] def LearningMaterialCreate.valid (c : LearningMaterialCreate) : Prop :=
  c.title.length ≤ 200 ∧ c.description.length ≤ 1000 ∧
  (∀ u, c.url = some u → u.length ≤ 500) ∧
  (∀ f, c.file_path = some f → f.length ≤ 500) ∧
  0 ≤ c.order_index

/-- Bound checks declared on `QuizCreate`. -/
@[reducible] def QuizCreate.valid (c : QuizCreate) : Prop :=
  c.title.length ≤ 200 ∧ c.description.length ≤ 1000 ∧
  (∀ t, c.time_limit_minutes = some t → 1 ≤ t ∧ t ≤ 300) ∧
  0 ≤ c.passing_score_percentage ∧ c.passing_score_percentage ≤ 100 ∧
  1 ≤ c.max_attempts ∧ c.max_attempts ≤ 10 ∧
  0 ≤ c.order_index

/-- Bound checks declared on `QuestionCreate`. -/
@[reducible] def QuestionCreate.valid (c : QuestionCreate) : Prop :=
  c.question_text.length ≤ 2000 ∧ c.explanation.length ≤ 1000 ∧
  1 ≤ c.points ∧ c.points ≤ 10 ∧ 0 ≤ c.order_index

/-- The stored state: one table per entity plus the id counter.
Modelled from the spec: six tables keyed by surrogate integer identity,
identities issued monotonically by the storage layer. -/
structure DB where
  bootcamps : List Bootcamp := []
  courses : List Course := []
  lessons : List Lesson := []
  materials : List LearningMaterial := []
  quizzes : List Quiz := []
  questions : List Question := []
  nextId : Nat := 1
deriving DecidableEq, Repr

def DB.empty : DB := {}

/-- Modelled from the spec: persisting a `BootcampCreate` validates the
declared bounds first (rejecting the value before it reaches storage),
then assigns identity and `created_at` / `updated_at`; `generation_status`
starts at its declared default `PENDING`. -/
def insertBootcamp (db : DB) (c : BootcampCreate) (now : Datetime) : Option DB :=
  if c.valid then
    some { db with
      bootcamps := db.bootcamps ++ [{
        id := some db.nextId,
        title := c.title, topic := c.topic, description := c.description,
        difficulty_level := c.difficulty_level,
        estimated_duration_hours := c.estimated_duration_hours,
        learning_objectives := c.learning_objectives,
        prerequisites := c.prerequisites, tags := c.tags,
        generation_status := .PENDING,
        generation_prompt := c.generation_prompt,
        created_at := now, updated_at := now }],
      nextId := db.nextId + 1 }
  else none

/-- Modelled from the spec: persisting a `CourseCreate`; validation happens
before storage, and the storage collaborator checks the parent reference. -/
def insertCourse (db : DB) (c : CourseCreate) (now : Datetime) : Option DB :=
  if c.valid ∧ (∃ b ∈ db.bootcamps, b.id = some c.bootcamp_id) then
    some { db with
      courses := db.courses ++ [{
        id := some db.nextId,
        bootcamp_id := c.bootcamp_id,
        title := c.title, description := c.description,
        order_index := c.order_index,
        estimated_duration_hours := c.estimated_duration_hours,
        learning_outcomes := c.learning_outcomes,
        created_at := now }],
      nextId := db.nextId + 1 }
  else none

/-- Modelled from the spec: persisting a `LessonCreate`. -/
def insertLesson (db : DB) (c : LessonCreate) (now : Datetime) : Option DB :=
  if c.valid ∧ (∃ co ∈ db.courses, co.id = some c.course_id) then
    some { db with
      lessons := db.lessons ++ [{
        id := some db.nextId,
        course_id := c.course_id,
        title := c.title, content := c.content, summary := c.summary,
        order_index := c.order_index,
        estimated_duration_minutes := c.estimated_duration_minutes,
        key_concepts := c.key_concepts,
        created_at := now }],
      nextId := db.nextId + 1 }
  else none

/-- Modelled from the spec: persisting a `LearningMaterialCreate`. -/
def insertMaterial (db : DB) (c : LearningMaterialCreate) (now : Datetime) : Option DB :=
  if c.valid ∧ (∃ l ∈ db.lessons, l.id = some c.lesson_id) then
    some { db with
      materials := db.materials ++ [{
        id := some db.nextId,
        lesson_id := c.lesson_id,
        title := c.title, description := c.description,
        material_type := c.material_type, content := c.content,
        url := c.url, file_path := c.file_path,
        order_index := c.order_index,
        material_metadata := c.material_metadata,
        created_at := now }],
      nextId := db.nextId + 1 }
  else none

/-- Modelled from the spec: persisting a `QuizCreate`.  Each parent id is
checked only when set — the schema itself never requires exactly one. -/
def insertQuiz (db : DB) (c : QuizCreate) (now : Datetime) : Option DB :=
  if c.valid ∧ (∀ lid, c.lesson_id = some lid → ∃ l ∈ db.lessons, l.id = some lid)
    ∧ (∀ bid, c.bootcamp_id = some bid → ∃ b ∈ db.bootcamps, b.id = some bid) then
    some { db with
      quizzes := db.quizzes ++ [{
        id := some db.nextId,
        lesson_id := c.lesson_id, bootcamp_id := c.bootcamp_id,
        title := c.title, description := c.description,
        is_exam := c.is_exam,
        time_limit_minutes := c.time_limit_minutes,
        passing_score_percentage := c.passing_score_percentage,
        max_attempts := c.max_attempts,
        order_index := c.order_index,
        created_at := now }],
      nextId := db.nextId + 1 }
  else none

/-- Modelled from the spec: persisting a `QuestionCreate`. -/
def insertQuestion (db : DB) (c : QuestionCreate) (now : Datetime) : Option DB :=
  if c.valid ∧ (∃ q ∈ db.quizzes, q.id = some c.quiz_id) then
    some { db with
      questions := db.questions ++ [{
        id := some db.nextId,
        quiz_id := c.quiz_id,
        question_text := c.question_text,
        question_type := c.question_type,
        options := c.options, correct_answers := c.correct_answers,
        explanation := c.explanation,
        points := c.points, order_index := c.order_index,
        difficulty_level := c.difficulty_level, tags := c.tags,
        created_at := now }],
      nextId := db.nextId + 1 }
  else none

/-- Ids of the courses belonging to bootcamp `bid`. -/
def DB.courseIdsOf (db : DB) (bid : Nat) : List Nat :=
  (db.courses.filter (fun c => c.bootcamp_id == bid)).filterMap (·.id)

/-- Ids of the lessons lying under bootcamp `bid` (via its courses). -/
def DB.lessonIdsUnder (db : DB) (bid : Nat) : List Nat :=
  (db.lessons.filter (fun l => (db.courseIdsOf bid).contains l.course_id)).filterMap (·.id)

/-- Ids of the lesson-quizzes lying under bootcamp `bid` (via its lessons). -/
def DB.quizIdsUnder (db : DB) (bid : Nat) : List Nat :=
  (db.quizzes.filter (fun q =>
    match q.lesson_id with
    | some lid => (db.lessonIdsUnder bid).contains lid
    | none => false)).filterMap (·.id)

/-- Modelled from the spec: deleting a bootcamp, following exactly the
`cascade_delete=True` relationships declared in the source —
Bootcamp→courses, Course→lessons, Lesson→materials, Lesson→quizzes,
Quiz→questions.  No relationship (hence no cascade) is declared from a
Bootcamp to the quizzes referencing it directly via `bootcamp_id`. -/
def deleteBootcamp (db : DB) (bid : Nat) : DB :=
  { db with
    bootcamps := db.bootcamps.filter (fun b => b.id != some bid),
    courses := db.courses.filter (fun c => c.bootcamp_id != bid),
    lessons := db.lessons.filter (fun l => !(db.courseIdsOf bid).contains l.course_id),
    materials := db.materials.filter (fun m => !(db.lessonIdsUnder bid).contains m.lesson_id),
    quizzes := db.quizzes.filter (fun q =>
      match q.lesson_id with
      | some lid => !(db.lessonIdsUnder bid).contains lid
      | none => true),
    questions := db.questions.filter (fun qu => !(db.quizIdsUnder bid).contains qu.quiz_id) }

/-- Modelled from the spec: merging a `BootcampUpdate` onto a stored
`Bootcamp` — only the fields explicitly present (`some`) overwrite; absent
(`none`) fields are untouched; `updated_at` is refreshed on mutation. -/
def applyUpdate (b : Bootcamp) (u : BootcampUpdate) (now : Datetime) : Bootcamp :=
  { b with
    title := u.title.getD b.title,
    description := u.description.getD b.description,
    difficulty_level := u.difficulty_level.getD b.difficulty_level,
    estimated_duration_hours := u.estimated_duration_hours.getD b.estimated_duration_hours,
    learning_objectives := u.learning_objectives.getD b.learning_objectives,
    prerequisites := u.prerequisites.getD b.prerequisites,
    tags := u.tags.getD b.tags,
    generation_status := u.generation_status.getD b.generation_status,
    updated_at := now }

/-- Modelled from the spec: storage-level update of the bootcamp with id
`bid` — the update payload is validated before any value reaches storage. -/
def updateBootcamp (db : DB) (bid : Nat) (u : BootcampUpdate) (now : Datetime) : Option DB :=
  if u.valid then
    some { db with
      bootcamps := db.bootcamps.map (fun b =>
        if b.id = some bid then applyUpdate b u now else b) }
  else none

/-- Raw input for `BootcampCreate`: every field may be omitted (`none`). -/
structure BootcampCreatePayload where
  title : Option String := none
  topic : Option String := none
  description : Option String := none
  difficulty_level : Option DifficultyLevel := none
  estimated_duration_hours : Option Int := none
  learning_objectives : Option (List String) := none
  prerequisites : Option (List String) := none
  tags : Option (List String) := none
  generation_prompt : Option String := none
deriving DecidableEq, Repr

/-- Modelled from the spec: parsing raw input into a `BootcampCreate` —
fields with a declared default take it when omitted; `title` and `topic`
have no default, so omitting either fails. -/
def BootcampCreate.parse (p : BootcampCreatePayload) : Option BootcampCreate := do
  let t ← p.title
  let tp ← p.topic
  pure {
    title := t, topic := tp,
    description := p.description.getD "",
    difficulty_level := p.difficulty_level.getD .BEGINNER,
    estimated_duration_hours := p.estimated_duration_hours.getD 40,
    learning_objectives := p.learning_objectives.getD [],
    prerequisites := p.prerequisites.getD [],
    tags := p.tags.getD [],
    generation_prompt := p.generation_prompt.getD "" }

/-- Modelled from the spec: full construction = parse plus bound validation. -/
def BootcampCreate.construct (p : BootcampCreatePayload) : Option BootcampCreate :=
  (BootcampCreate.parse p).bind (fun c => if c.valid then some c else none)

/-- Raw input for `CourseCreate`. -/
structure CourseCreatePayload where
  bootcamp_id : Option Nat := none
  title : Option String := none
  description : Option String := none
  order_index : Option Int := none
  estimated_duration_hours : Option Int := none
  learning_outcomes : Option (List String) := none
deriving DecidableEq, Repr

/-- Modelled from the spec: parsing raw input into a `CourseCreate` —
`bootcamp_id`, `title` and `order_index` have no default. -/
def CourseCreate.parse (p : CourseCreatePayload) : Option CourseCreate := do
  let bid ← p.bootcamp_id
  let t ← p.title
  let oi ← p.order_index
  pure {
    bootcamp_id := bid, title := t,
    description := p.description.getD "",
    order_index := oi,
    estimated_duration_hours := p.estimated_duration_hours.getD 8,
    learning_outcomes := p.learning_outcomes.getD [] }

/-- Modelled from the spec: full construction = parse plus bound validation. -/
def CourseCreate.construct (p : CourseCreatePayload) : Option CourseCreate :=
  (CourseCreate.parse p).bind (fun c => if c.valid then some c else none)

/-- Raw input for `LessonCreate`. -/
structure LessonCreatePayload where
  course_id : Option Nat := none
  title : Option String := none
  content : Option String := none
  summary : Option String := none
  order_index : Option Int := none
  estimated_duration_minutes : Option Int := none
  key_concepts : Option (List String) := none
deriving DecidableEq, Repr

/-- Modelled from the spec: parsing raw input into a `LessonCreate` —
`course_id`, `title` and `order_index` have no default. -/
def LessonCreate.parse (p : LessonCreatePayload) : Option LessonCreate := do
  let cid ← p.course_id
  let t ← p.title
  let oi ← p.order_index
  pure {
    course_id := cid, title := t,
    content := p.content.getD "",
    summary := p.summary.getD "",
    order_index := oi,
    estimated_duration_minutes := p.estimated_duration_minutes.getD 60,
    key_concepts := p.key_concepts.getD [] }

/-- Modelled from the spec: full construction = parse plus bound validation. -/
def LessonCreate.construct (p : LessonCreatePayload) : Option LessonCreate :=
  (LessonCreate.parse p).bind (fun c => if c.valid then some c else none)

/-- Raw input for `LearningMaterialCreate`.  `url` and `file_path` default to
`none` in the source, so their payload entry is the supplied optional value
wrapped once more. -/
structure LearningMaterialCreatePayload where
  lesson_id : Option Nat := none
  title : Option String := none
  description : Option String := none
  material_type : Option MaterialType := none
  content : Option String := none
  url : Option (Option String) := none
  file_path : Option (Option String) := none
  order_index : Option Int := none
  material_metadata : Option (List (String × String)) := none
deriving DecidableEq, Repr

/-- Modelled from the spec: parsing raw input into a `LearningMaterialCreate` —
`lesson_id`, `title` and `order_index` have no default. -/
def LearningMaterialCreate.parse (p : LearningMaterialCreatePayload) :
    Option LearningMaterialCreate := do
  let lid ← p.lesson_id
  let t ← p.title
  let oi ← p.order_index
  pure {
    lesson_id := lid, title := t,
    description := p.description.getD "",
    material_type := p.material_type.getD .TEXT,
    content := p.content.getD "",
    url := p.url.getD none,
    file_path := p.file_path.getD none,
    order_index := oi,
    material_metadata := p.material_metadata.getD [] }

/-- Modelled from the spec: full construction = parse plus bound validation. -/
def LearningMaterialCreate.construct (p : LearningMaterialCreatePayload) :
    Option LearningMaterialCreate :=
  (LearningMaterialCreate.parse p).bind (fun c => if c.valid then some c else none)

/-- Raw input for `QuizCreate`. -/
structure QuizCreatePayload where
  lesson_id : Option (Option Nat) := none
  bootcamp_id : Option (Option Nat) := none
  title : Option String := none
  description : Option String := none
  is_exam : Option Bool := none
  time_limit_minutes : Option (Option Int) := none
  passing_score_percentage : Option Int := none
  max_attempts : Option Int := none
  order_index : Option Int := none
deriving DecidableEq, Repr

/-- Modelled from the spec: parsing raw input into a `QuizCreate` —
only `title` and `order_index` have no default; both parent ids default
to `none`. -/
def QuizCreate.parse (p : QuizCreatePayload) : Option QuizCreate := do
  let t ← p.title
  let oi ← p.order_index
  pure {
    lesson_id := p.lesson_id.getD none,
    bootcamp_id := p.bootcamp_id.getD none,
    title := t,
    description := p.description.getD "",
    is_exam := p.is_exam.getD false,
    time_limit_minutes := p.time_limit_minutes.getD none,
    passing_score_percentage := p.passing_score_percentage.getD 70,
    max_attempts := p.max_attempts.getD 3,
    order_index := oi }

/-- Modelled from the spec: full construction = parse plus bound validation. -/
def QuizCreate.construct (p : QuizCreatePayload) : Option QuizCreate :=
  (QuizCreate.parse p).bind (fun c => if c.valid then some c else none)

/-- Raw input for `QuestionCreate`. -/
structure QuestionCreatePayload where
  quiz_id : Option Nat := none
  question_text : Option String := none
  question_type : Option QuestionType := none
  options : Option (List String) := none
  correct_answers : Option (List String) := none
  explanation : Option String := none
  points : Option Int := none
  order_index : Option Int := none
  difficulty_level : Option DifficultyLevel := none
  tags : Option (List String) := none
deriving DecidableEq, Repr

/-- Modelled from the spec: parsing raw input into a `QuestionCreate` —
`quiz_id`, `question_text` and `order_index` have no default. -/
def QuestionCreate.parse (p : QuestionCreatePayload) : Option QuestionCreate := do
  let qid ← p.quiz_id
  let qt ← p.question_text
  let oi ← p.order_index
  pure {
    quiz_id := qid, question_text := qt,
    question_type := p.question_type.getD .MULTIPLE_CHOICE,
    options := p.options.getD [],
    correct_answers := p.correct_answers.getD [],
    explanation := p.explanation.getD "",
    points := p.points.getD 1,
    order_index := oi,
    difficulty_level := p.difficulty_level.getD .BEGINNER,
    tags := p.tags.getD [] }

/-- Modelled from the spec: full construction = parse plus bound validation. -/
def QuestionCreate.construct (p : QuestionCreatePayload) : Option QuestionCreate :=
  (QuestionCreate.parse p).bind (fun c => if c.valid then some c else none)

/-- Response shape `BootcampResponse` from models.py: no `generation_prompt`
field, timestamps are plain strings. -/
structure BootcampResponse where
  id : Nat
  title : String
  topic : String
  description : String
  difficulty_level : DifficultyLevel
  estimated_duration_hours : Int
  learning_objectives : List String
  prerequisites : List String
  tags : List String
  generation_status : GenerationStatus
  created_at : String
  updated_at : String
deriving DecidableEq, Repr

/-- Response shape `CourseWithLessonsResponse` from models.py: the child
collection is replaced by `lessons_count`. -/
structure CourseWithLessonsResponse where
  id : Nat
  title : String
  description : String
  order_index : Int
  estimated_duration_hours : Int
  learning_outcomes : List String
  lessons_count : Nat
deriving DecidableEq, Repr

/-- Response shape `LessonDetailResponse` from models.py. -/
structure LessonDetailResponse where
  id : Nat
  title : String
  content : String
  summary : String
  order_index : Int
  estimated_duration_minutes : Int
  key_concepts : List String
  materials_count : Nat
  quizzes_count : Nat
deriving DecidableEq, Repr

/-- Modelled from the spec: timestamps are rendered as text in responses. -/
def renderDatetime (d : Datetime) : String := toString d

/-- The lessons of course `cid` currently stored. -/
def DB.lessonsOf (db : DB) (cid : Nat) : List Lesson :=
  db.lessons.filter (fun l => l.course_id == cid)

/-- The materials of lesson `lid` currently stored. -/
def DB.materialsOf (db : DB) (lid : Nat) : List LearningMaterial :=
  db.materials.filter (fun m => m.lesson_id == lid)

/-- The quizzes of lesson `lid` currently stored. -/
def DB.quizzesOf (db : DB) (lid : Nat) : List Quiz :=
  db.quizzes.filter (fun q => q.lesson_id == some lid)

/-- Modelled from the spec: projecting a persisted `Bootcamp` into
`BootcampResponse` — only fields of the response shape are carried over
(`generation_prompt` is not among them), timestamps become text. -/
def bootcampResponse (b : Bootcamp) : Option BootcampResponse :=
  b.id.map (fun i => {
    id := i,
    title := b.title, topic := b.topic, description := b.description,
    difficulty_level := b.difficulty_level,
    estimated_duration_hours := b.estimated_duration_hours,
    learning_objectives := b.learning_objectives,
    prerequisites := b.prerequisites, tags := b.tags,
    generation_status := b.generation_status,
    created_at := renderDatetime b.created_at,
    updated_at := renderDatetime b.updated_at })

/-- Modelled from the spec: projecting a persisted `Course` into
`CourseWithLessonsResponse` — `lessons_count` is computed at projection
time from the current child collection. -/
def courseWithLessonsResponse (db : DB) (c : Course) : Option CourseWithLessonsResponse :=
  c.id.map (fun i => {
    id := i,
    title := c.title, description := c.description,
    order_index := c.order_index,
    estimated_duration_hours := c.estimated_duration_hours,
    learning_outcomes := c.learning_outcomes,
    lessons_count := (db.lessonsOf i).length })

/-- Modelled from the spec: projecting a persisted `Lesson` into
`LessonDetailResponse` — both counts are computed at projection time from
the current child collections. -/
def lessonDetailResponse (db : DB) (l : Lesson) : Option LessonDetailResponse :=
  l.id.map (fun i => {
    id := i,
    title := l.title, content := l.content, summary := l.summary,
    order_index := l.order_index,
    estimated_duration_minutes := l.estimated_duration_minutes,
    key_concepts := l.key_concepts,
    materials_count := (db.materialsOf i).length,
    quizzes_count := (db.quizzesOf i).length })

/-- A quiz attached directly to bootcamp 1 (a "final exam"), with no lesson. -/
def c1BootcampQuiz : Quiz :=
  { id := some 2, lesson_id := none, bootcamp_id := some 1,
    title := "Final Exam", order_index := 0, created_at := 0 }

/-- A store holding one bootcamp and one quiz attached directly to it. -/
def c1Db : DB :=
  { bootcamps := [{ id := some 1, title := "B", topic := "T",
                    created_at := 0, updated_at := 0 }],
    quizzes := [c1BootcampQuiz],
    nextId := 3 }

def w1Bootcamp : Bootcamp :=
  { id := some 1, title := "Doomed", topic := "T1", created_at := 0, updated_at := 0 }

def w2Bootcamp : Bootcamp :=
  { id := some 2, title := "Kept", topic := "T2", created_at := 0, updated_at := 0 }

def w3Course : Course :=
  { id := some 3, bootcamp_id := 2, title := "C", order_index := 0, created_at := 0 }

def w4Lesson : Lesson :=
  { id := some 4, course_id := 3, title := "L", order_index := 0, created_at := 0 }

def w5Material : LearningMaterial :=
  { id := some 5, lesson_id := 4, title := "M", order_index := 0, created_at := 0 }

def w6Quiz : Quiz :=
  { id := some 6, lesson_id := some 4, title := "Q", order_index := 0, created_at := 0 }

def w7Question : Question :=
  { id := some 7, quiz_id := 6, question_text := "?", order_index := 0, created_at := 0 }

def w8BootcampQuiz : Quiz :=
  { id := some 8, lesson_id := none, bootcamp_id := some 1,
    title := "Exam", order_index := 1, created_at := 0 }

def w9Course : Course :=
  { id := some 9, bootcamp_id := 1, title := "DC", order_index := 0, created_at := 0 }

def w10Lesson : Lesson :=
  { id := some 10, course_id := 9, title := "DL", order_index := 0, created_at := 0 }

def w11Material : LearningMaterial :=
  { id := some 11, lesson_id := 10, title := "DM", order_index := 0, created_at := 0 }

def w12Quiz : Quiz :=
  { id := some 12, lesson_id := some 10, title := "DQ", order_index := 0, created_at := 0 }

def w13Question : Question :=
  { id := some 13, quiz_id := 12, question_text := "d?", order_index := 0, created_at := 0 }

/-- A store with two bootcamps: the full subtree of bootcamp 1 is doomed
(course 9, lesson 10, material 11, quiz 12, question 13, plus exam quiz 8
attached directly), while bootcamp 2's subtree (3,4,5,6,7) survives. -/
def c1WitnessDb : DB :=
  { bootcamps := [w1Bootcamp, w2Bootcamp],
    courses := [w3Course, w9Course],
    lessons := [w4Lesson, w10Lesson],
    materials := [w5Material, w11Material],
    quizzes := [w6Quiz, w8BootcampQuiz, w12Quiz],
    questions := [w7Question, w13Question],
    nextId := 14 }

/-- A bootcamp whose only out-of-bound field is `estimated_duration_hours`. -/
def badBootcamp : Bootcamp :=
  { title := "B", topic := "T", estimated_duration_hours := 0,
    created_at := 0, updated_at := 0 }

/-- A course with `order_index` and `estimated_duration_hours` out of bounds. -/
def badCourse : Course :=
  { bootcamp_id := 1, title := "C", order_index := -1,
    estimated_duration_hours := 101, created_at := 0 }

/-- A lesson with `order_index` and `estimated_duration_minutes` out of bounds. -/
def badLesson : Lesson :=
  { course_id := 1, title := "L", order_index := -1,
    estimated_duration_minutes := 481, created_at := 0 }

/-- A material with `order_index` out of bounds. -/
def badMaterial : LearningMaterial :=
  { lesson_id := 1, title := "M", order_index := -1, created_at := 0 }

/-- A quiz with every bounded numeric field out of bounds. -/
def badQuiz : Quiz :=
  { title := "Q", time_limit_minutes := some 0,
    passing_score_percentage := -1, max_attempts := 0,
    order_index := -1, created_at := 0 }

/-- A question with `points` and `order_index` out of bounds. -/
def badQuestion : Question :=
  { quiz_id := 1, question_text := "?", points := 11, order_index := -1,
    created_at := 0 }

def badBootcampC : BootcampCreate :=
  { title := "B", topic := "T", estimated_duration_hours := 1001 }

def badCourseC : CourseCreate :=
  { bootcamp_id := 1, title := "C", order_index := -1,
    estimated_duration_hours := 0 }

def badLessonC : LessonCreate :=
  { course_id := 1, title := "L", order_index := -1,
    estimated_duration_minutes := 0 }

def badMaterialC : LearningMaterialCreate :=
  { lesson_id := 1, title := "M", order_index := -1 }

def badQuizC : QuizCreate :=
  { title := "Q", time_limit_minutes := some 301,
    passing_score_percentage := 101, max_attempts := 11, order_index := -1 }

def badQuestionC : QuestionCreate :=
  { quiz_id := 1, question_text := "?", points := 0, order_index := -1 }

def badUpdate : BootcampUpdate :=
  { estimated_duration_hours := some 0 }

/-- A stored bootcamp used to exercise the update merge. -/
def c3Base : Bootcamp :=
  { id := some 1, title := "Old", topic := "Topic", description := "old d",
    difficulty_level := .BEGINNER, estimated_duration_hours := 40,
    learning_objectives := ["o1"], prerequisites := ["p1"], tags := ["t1"],
    generation_status := .PENDING, generation_prompt := "gp",
    created_at := 7, updated_at := 7 }

/-- An update payload with every field explicitly present. -/
def c3FullUpdate : BootcampUpdate :=
  { title := some "New", description := some "new d",
    difficulty_level := some .ADVANCED, estimated_duration_hours := some 99,
    learning_objectives := some [], prerequisites := some ["p2"],
    tags := some ["t2"], generation_status := some .COMPLETED }

def c6Bootcamp : BootcampCreate :=
  { title := "Python Bootcamp", topic := "Python", estimated_duration_hours := 40 }

def c6Course : CourseCreate :=
  { bootcamp_id := 1, title := "Basics", order_index := 0 }

def c6Lesson : LessonCreate :=
  { course_id := 2, title := "Intro", order_index := 0 }

def c6Quiz : QuizCreate :=
  { lesson_id := some 3, title := "Quiz 1", order_index := 0 }

def c6Question : QuestionCreate :=
  { quiz_id := 4, question_text := "What is 2+2?", points := 1, order_index := 0 }

/-- The spec's worked example: bootcamp, then course (order 0), then lesson
(order 0), then quiz attached to the lesson, then question worth 1 point. -/
def c6Scenario : Option DB :=
  (insertBootcamp DB.empty c6Bootcamp 0).bind fun db1 =>
  (insertCourse db1 c6Course 1).bind fun db2 =>
  (insertLesson db2 c6Lesson 2).bind fun db3 =>
  (insertQuiz db3 c6Quiz 3).bind fun db4 =>
  insertQuestion db4 c6Question 4

/-- A 201-character string, one character over every `title` bound. -/
def longTitle : String := String.mk (List.replicate 201 'x')

def gBootcampC : BootcampCreate := { title := "B", topic := "T" }

def gCourseC : CourseCreate := { bootcamp_id := 1, title := "C", order_index := 0 }

def gLessonC : LessonCreate := { course_id := 1, title := "L", order_index := 0 }

def gMaterialC : LearningMaterialCreate := { lesson_id := 1, title := "M", order_index := 0 }

def gQuizC : QuizCreate := { title := "Q", order_index := 0 }

/-- The projection of the surviving bootcamp, course and lesson of
`c1WitnessDb`, used to exercise the projection contracts concretely. -/
def c7BootcampResp : BootcampResponse := (bootcampResponse w2Bootcamp).get (by decide)

def c7CourseResp : CourseWithLessonsResponse :=
  (courseWithLessonsResponse c1WitnessDb w3Course).get (by decide)

def c7LessonResp : LessonDetailResponse :=
  (lessonDetailResponse c1WitnessDb w4Lesson).get (by decide)

/-- C1: FALSE as stated — the cascade declared in the source misses quizzes
attached directly to a bootcamp.  In `c1Db`, deleting bootcamp 1 removes the
bootcamp but its directly attached quiz (bootcamp_id = 1, no lesson)
survives, so not every descendant at the five levels is removed. -/
theorem c1_cascade_counterexample :
    ((deleteBootcamp c1Db 1).bootcamps = []) ∧
    ((deleteBootcamp c1Db 1).quizzes = [c1BootcampQuiz]) ∧
    c1BootcampQuiz.bootcamp_id = some 1 ∧
    c1BootcampQuiz ∈ c1Db.quizzes := by decide

/-- C1 (amended): deleting a bootcamp removes the bootcamp itself, all of
its courses, all lessons of those courses, all materials and quizzes of
those lessons, and all questions of those quizzes — but a quiz attached
directly to the bootcamp (lesson_id unset) is not cascaded and survives. -/
theorem c1_cascade_amended (db : DB) (bid : Nat) :
    (∀ b ∈ (deleteBootcamp db bid).bootcamps, b.id ≠ some bid) ∧
    (∀ c ∈ (deleteBootcamp db bid).courses, c.bootcamp_id ≠ bid) ∧
    (∀ l ∈ (deleteBootcamp db bid).lessons,
       (db.courseIdsOf bid).contains l.course_id = false) ∧
    (∀ m ∈ (deleteBootcamp db bid).materials,
       (db.lessonIdsUnder bid).contains m.lesson_id = false) ∧
    (∀ q ∈ (deleteBootcamp db bid).quizzes, ∀ lid, q.lesson_id = some lid →
       (db.lessonIdsUnder bid).contains lid = false) ∧
    (∀ qu ∈ (deleteBootcamp db bid).questions,
       (db.quizIdsUnder bid).contains qu.quiz_id = false) ∧
    (∀ q ∈ db.quizzes, q.lesson_id = none → q ∈ (deleteBootcamp db bid).quizzes) := by
  refine ⟨?_, ?_, ?_, ?_, ?_, ?_, ?_⟩
  · intro b hb
    simp only [deleteBootcamp, List.mem_filter, bne_iff_ne, ne_eq] at hb
    exact hb.2
  · intro c hc
    simp only [deleteBootcamp, List.mem_filter, bne_iff_ne, ne_eq] at hc
    exact hc.2
  · intro l hl
    simp only [deleteBootcamp, List.mem_filter, Bool.not_eq_true'] at hl
    exact hl.2
  · intro m hm
    simp only [deleteBootcamp, List.mem_filter, Bool.not_eq_true'] at hm
    exact hm.2
  · intro q hq lid hlid
    simp only [deleteBootcamp, List.mem_filter] at hq
    have h2 := hq.2
    rw [hlid] at h2
    simpa using h2
  · intro qu hqu
    simp only [deleteBootcamp, List.mem_filter, Bool.not_eq_true'] at hqu
    exact hqu.2
  · intro q hq hnone
    simp only [deleteBootcamp, List.mem_filter]
    refine ⟨hq, ?_⟩
    rw [hnone]

/-- C1 amended, instantiated on `c1WitnessDb` after deleting bootcamp 1:
each surviving row of bootcamp 2's subtree is clear of bootcamp 1, and the
bootcamp-attached exam quiz 8 survives. -/
theorem c1_cascade_amended_witness :
    w2Bootcamp.id ≠ some 1 ∧
    w3Course.bootcamp_id ≠ 1 ∧
    (c1WitnessDb.courseIdsOf 1).contains w4Lesson.course_id = false ∧
    (c1WitnessDb.lessonIdsUnder 1).contains w5Material.lesson_id = false ∧
    (c1WitnessDb.lessonIdsUnder 1).contains 4 = false ∧
    (c1WitnessDb.quizIdsUnder 1).contains w7Question.quiz_id = false ∧
    w8BootcampQuiz ∈ (deleteBootcamp c1WitnessDb 1).quizzes :=
  ⟨(c1_cascade_amended c1WitnessDb 1).1 w2Bootcamp (by decide),
   (c1_cascade_amended c1WitnessDb 1).2.1 w3Course (by decide),
   (c1_cascade_amended c1WitnessDb 1).2.2.1 w4Lesson (by decide),
   (c1_cascade_amended c1WitnessDb 1).2.2.2.1 w5Material (by decide),
   (c1_cascade_amended c1WitnessDb 1).2.2.2.2.1 w6Quiz (by decide) 4 rfl,
   (c1_cascade_amended c1WitnessDb 1).2.2.2.2.2.1 w7Question (by decide),
   (c1_cascade_amended c1WitnessDb 1).2.2.2.2.2.2 w8BootcampQuiz (by decide) rfl⟩

/-- C2: for every entity, create shape and the update shape, a bounded
numeric field outside its declared [min,max] (or an order_index below 0)
makes validation fail, and the corresponding insert/update leaves the
store untouched (returns none) — the value never reaches storage. -/
theorem c2_bounds_reject :
    (∀ b : Bootcamp, (b.estimated_duration_hours < 1 ∨ 1000 < b.estimated_duration_hours) → ¬ b.valid) ∧
    (∀ c : Course, c.order_index < 0 → ¬ c.valid) ∧
    (∀ c : Course, (c.estimated_duration_hours < 1 ∨ 100 < c.estimated_duration_hours) → ¬ c.valid) ∧
    (∀ l : Lesson, l.order_index < 0 → ¬ l.valid) ∧
    (∀ l : Lesson, (l.estimated_duration_minutes < 1 ∨ 480 < l.estimated_duration_minutes) → ¬ l.valid) ∧
    (∀ m : LearningMaterial, m.order_index < 0 → ¬ m.valid) ∧
    (∀ q : Quiz, ∀ t, q.time_limit_minutes = some t → (t < 1 ∨ 300 < t) → ¬ q.valid) ∧
    (∀ q : Quiz, (q.passing_score_percentage < 0 ∨ 100 < q.passing_score_percentage) → ¬ q.valid) ∧
    (∀ q : Quiz, (q.max_attempts < 1 ∨ 10 < q.max_attempts) → ¬ q.valid) ∧
    (∀ q : Quiz, q.order_index < 0 → ¬ q.valid) ∧
    (∀ qu : Question, (qu.points < 1 ∨ 10 < qu.points) → ¬ qu.valid) ∧
    (∀ qu : Question, qu.order_index < 0 → ¬ qu.valid) ∧
    (∀ (db : DB) (now : Datetime) (c : BootcampCreate),
       (c.estimated_duration_hours < 1 ∨ 1000 < c.estimated_duration_hours) →
       insertBootcamp db c now = none) ∧
    (∀ (db : DB) (now : Datetime) (c : CourseCreate),
       c.order_index < 0 → insertCourse db c now = none) ∧
    (∀ (db : DB) (now : Datetime) (c : CourseCreate),
       (c.estimated_duration_hours < 1 ∨ 100 < c.estimated_duration_hours) →
       insertCourse db c now = none) ∧
    (∀ (db : DB) (now : Datetime) (c : LessonCreate),
       c.order_index < 0 → insertLesson db c now = none) ∧
    (∀ (db : DB) (now : Datetime) (c : LessonCreate),
       (c.estimated_duration_minutes < 1 ∨ 480 < c.estimated_duration_minutes) →
       insertLesson db c now = none) ∧
    (∀ (db : DB) (now : Datetime) (c : LearningMaterialCreate),
       c.order_index < 0 → insertMaterial db c now = none) ∧
    (∀ (db : DB) (now : Datetime) (c : QuizCreate), ∀ t,
       c.time_limit_minutes = some t → (t < 1 ∨ 300 < t) →
       insertQuiz db c now = none) ∧
    (∀ (db : DB) (now : Datetime) (c : QuizCreate),
       (c.passing_score_percentage < 0 ∨ 100 < c.passing_score_percentage) →
       insertQuiz db c now = none) ∧
    (∀ (db : DB) (now : Datetime) (c : QuizCreate),
       (c.max_attempts < 1 ∨ 10 < c.max_attempts) → insertQuiz db c now = none) ∧
    (∀ (db : DB) (now : Datetime) (c : QuizCreate),
       c.order_index < 0 → insertQuiz db c now = none) ∧
    (∀ (db : DB) (now : Datetime) (c : QuestionCreate),
       (c.points < 1 ∨ 10 < c.points) → insertQuestion db c now = none) ∧
    (∀ (db : DB) (now : Datetime) (c : QuestionCreate),
       c.order_index < 0 → insertQuestion db c now = none) ∧
    (∀ (u : BootcampUpdate) (v : Int), u.estimated_duration_hours = some v →
       (v < 1 ∨ 1000 < v) → ∀ (db : DB) (bid : Nat) (now : Datetime),
       updateBootcamp db bid u now = none) := by
  refine ⟨?_, ?_, ?_, ?_, ?_, ?_, ?_, ?_, ?_, ?_, ?_, ?_, ?_, ?_, ?_, ?_, ?_, ?_, ?_, ?_, ?_, ?_, ?_, ?_, ?_⟩
  · rintro b h ⟨-, -, -, h4, h5, -⟩; rcases h with h | h <;> omega
  · rintro c h ⟨-, -, h3, -, -⟩; omega
  · rintro c h ⟨-, -, -, h4, h5⟩; rcases h with h | h <;> omega
  · rintro l h ⟨-, -, h3, -, -⟩; omega
  · rintro l h ⟨-, -, -, h4, h5⟩; rcases h with h | h <;> omega
  · rintro m h ⟨-, -, -, -, h5⟩; omega
  · rintro q t ht h ⟨-, -, h3, -⟩
    rcases h3 t ht with ⟨ha, hb⟩; rcases h with h | h <;> omega
  · rintro q h ⟨-, -, -, h4, h5, -⟩; rcases h with h | h <;> omega
  · rintro q h ⟨-, -, -, -, -, h6, h7, -⟩; rcases h with h | h <;> omega
  · rintro q h ⟨-, -, -, -, -, -, -, h8⟩; omega
  · rintro qu h ⟨-, -, h3, h4, -⟩; rcases h with h | h <;> omega
  · rintro qu h ⟨-, -, -, -, h5⟩; omega
  · intro db now c h
    have hval : ¬ c.valid := by
      rintro ⟨-, -, -, h4, h5, -⟩; rcases h with h | h <;> omega
    simp [insertBootcamp, hval]
  · intro db now c h
    have hval : ¬ c.valid := by rintro ⟨-, -, h3, -, -⟩; omega
    simp [insertCourse, hval]
  · intro db now c h
    have hval : ¬ c.valid := by
      rintro ⟨-, -, -, h4, h5⟩; rcases h with h | h <;> omega
    simp [insertCourse, hval]
  · intro db now c h
    have hval : ¬ c.valid := by rintro ⟨-, -, h3, -, -⟩; omega
    simp [insertLesson, hval]
  · intro db now c h
    have hval : ¬ c.valid := by
      rintro ⟨-, -, -, h4, h5⟩; rcases h with h | h <;> omega
    simp [insertLesson, hval]
  · intro db now c h
    have hval : ¬ c.valid := by rintro ⟨-, -, -, -, h5⟩; omega
    simp [insertMaterial, hval]
  · intro db now c t ht h
    have hval : ¬ c.valid := by
      rintro ⟨-, -, h3, -⟩
      rcases h3 t ht with ⟨ha, hb⟩; rcases h with h | h <;> omega
    simp [insertQuiz, hval]
  · intro db now c h
    have hval : ¬ c.valid := by
      rintro ⟨-, -, -, h4, h5, -⟩; rcases h with h | h <;> omega
    simp [insertQuiz, hval]
  · intro db now c h
    have hval : ¬ c.valid := by
      rintro ⟨-, -, -, -, -, h6, h7, -⟩; rcases h with h | h <;> omega
    simp [insertQuiz, hval]
  · intro db now c h
    have hval : ¬ c.valid := by
      rintro ⟨-, -, -, -, -, -, -, h8⟩; omega
    simp [insertQuiz, hval]
  · intro db now c h
    have hval : ¬ c.valid := by
      rintro ⟨-, -, h3, h4, -⟩; rcases h with h | h <;> omega
    simp [insertQuestion, hval]
  · intro db now c h
    have hval : ¬ c.valid := by rintro ⟨-, -, -, -, h5⟩; omega
    simp [insertQuestion, hval]
  · intro u v hset h db bid now
    have hval : ¬ u.valid := by
      rintro ⟨-, -, h3⟩
      rcases h3 v hset with ⟨ha, hb⟩; rcases h with h | h <;> omega
    simp [updateBootcamp, hval]

/-- C2 instantiated on concrete out-of-bound records for every shape. -/
theorem c2_bounds_reject_witness :
    (¬ badBootcamp.valid) ∧ (¬ badCourse.valid) ∧ (¬ badLesson.valid) ∧
    (¬ badMaterial.valid) ∧ (¬ badQuiz.valid) ∧ (¬ badQuestion.valid) ∧
    insertBootcamp DB.empty badBootcampC 0 = none ∧
    insertCourse DB.empty badCourseC 0 = none ∧
    insertLesson DB.empty badLessonC 0 = none ∧
    insertMaterial DB.empty badMaterialC 0 = none ∧
    insertQuiz DB.empty badQuizC 0 = none ∧
    insertQuestion DB.empty badQuestionC 0 = none ∧
    updateBootcamp DB.empty 1 badUpdate 0 = none :=
  ⟨c2_bounds_reject.1 badBootcamp (Or.inl (by decide)),
   c2_bounds_reject.2.1 badCourse (by decide),
   c2_bounds_reject.2.2.2.1 badLesson (by decide),
   c2_bounds_reject.2.2.2.2.2.1 badMaterial (by decide),
   c2_bounds_reject.2.2.2.2.2.2.1 badQuiz 0 rfl (Or.inl (by decide)),
   c2_bounds_reject.2.2.2.2.2.2.2.2.2.2.1 badQuestion (Or.inr (by decide)),
   c2_bounds_reject.2.2.2.2.2.2.2.2.2.2.2.2.1 DB.empty 0 badBootcampC (Or.inr (by decide)),
   c2_bounds_reject.2.2.2.2.2.2.2.2.2.2.2.2.2.1 DB.empty 0 badCourseC (by decide),
   c2_bounds_reject.2.2.2.2.2.2.2.2.2.2.2.2.2.2.2.1 DB.empty 0 badLessonC (by decide),
   c2_bounds_reject.2.2.2.2.2.2.2.2.2.2.2.2.2.2.2.2.2.1 DB.empty 0 badMaterialC (by decide),
   c2_bounds_reject.2.2.2.2.2.2.2.2.2.2.2.2.2.2.2.2.2.2.1 DB.empty 0 badQuizC 301 rfl (Or.inr (by decide)),
   c2_bounds_reject.2.2.2.2.2.2.2.2.2.2.2.2.2.2.2.2.2.2.2.2.2.2.1 DB.empty 0 badQuestionC (Or.inl (by decide)),
   c2_bounds_reject.2.2.2.2.2.2.2.2.2.2.2.2.2.2.2.2.2.2.2.2.2.2.2.2 badUpdate 0 rfl (Or.inl (by decide)) DB.empty 1 0⟩

/-- C3: applying a `BootcampUpdate` overwrites exactly the fields present
(`some`) in the payload; every field absent (`none`) from the payload — and
every field the update shape does not carry at all (id, topic,
generation_prompt, created_at) — is unchanged afterwards. -/
theorem c3_update_frame (b : Bootcamp) (u : BootcampUpdate) (now : Datetime) :
    ((applyUpdate b u now).id = b.id) ∧
    ((applyUpdate b u now).topic = b.topic) ∧
    ((applyUpdate b u now).generation_prompt = b.generation_prompt) ∧
    ((applyUpdate b u now).created_at = b.created_at) ∧
    (u.title = none → (applyUpdate b u now).title = b.title) ∧
    (∀ v, u.title = some v → (applyUpdate b u now).title = v) ∧
    (u.description = none → (applyUpdate b u now).description = b.description) ∧
    (∀ v, u.description = some v → (applyUpdate b u now).description = v) ∧
    (u.difficulty_level = none → (applyUpdate b u now).difficulty_level = b.difficulty_level) ∧
    (∀ v, u.difficulty_level = some v → (applyUpdate b u now).difficulty_level = v) ∧
    (u.estimated_duration_hours = none → (applyUpdate b u now).estimated_duration_hours = b.estimated_duration_hours) ∧
    (∀ v, u.estimated_duration_hours = some v → (applyUpdate b u now).estimated_duration_hours = v) ∧
    (u.learning_objectives = none → (applyUpdate b u now).learning_objectives = b.learning_objectives) ∧
    (∀ v, u.learning_objectives = some v → (applyUpdate b u now).learning_objectives = v) ∧
    (u.prerequisites = none → (applyUpdate b u now).prerequisites = b.prerequisites) ∧
    (∀ v, u.prerequisites = some v → (applyUpdate b u now).prerequisites = v) ∧
    (u.tags = none → (applyUpdate b u now).tags = b.tags) ∧
    (∀ v, u.tags = some v → (applyUpdate b u now).tags = v) ∧
    (u.generation_status = none → (applyUpdate b u now).generation_status = b.generation_status) ∧
    (∀ v, u.generation_status = some v → (applyUpdate b u now).generation_status = v) := by
  refine ⟨rfl, rfl, rfl, rfl, ?_, ?_, ?_, ?_, ?_, ?_, ?_, ?_, ?_, ?_, ?_, ?_, ?_, ?_, ?_, ?_⟩ <;>
    (intros; simp_all [applyUpdate])

/-- C3 instantiated: a fully populated update overwrites all eight payload
fields of `c3Base` (and leaves id/topic/generation_prompt/created_at alone),
while the empty update leaves every field unchanged. -/
theorem c3_update_frame_witness :
    (applyUpdate c3Base c3FullUpdate 9).title = "New" ∧
    (applyUpdate c3Base c3FullUpdate 9).description = "new d" ∧
    (applyUpdate c3Base c3FullUpdate 9).difficulty_level = .ADVANCED ∧
    (applyUpdate c3Base c3FullUpdate 9).estimated_duration_hours = 99 ∧
    (applyUpdate c3Base c3FullUpdate 9).learning_objectives = ([] : List String) ∧
    (applyUpdate c3Base c3FullUpdate 9).prerequisites = ["p2"] ∧
    (applyUpdate c3Base c3FullUpdate 9).tags = ["t2"] ∧
    (applyUpdate c3Base c3FullUpdate 9).generation_status = .COMPLETED ∧
    (applyUpdate c3Base c3FullUpdate 9).id = c3Base.id ∧
    (applyUpdate c3Base c3FullUpdate 9).topic = c3Base.topic ∧
    (applyUpdate c3Base c3FullUpdate 9).generation_prompt = c3Base.generation_prompt ∧
    (applyUpdate c3Base c3FullUpdate 9).created_at = c3Base.created_at ∧
    (applyUpdate c3Base {} 9).title = c3Base.title ∧
    (applyUpdate c3Base {} 9).description = c3Base.description ∧
    (applyUpdate c3Base {} 9).difficulty_level = c3Base.difficulty_level ∧
    (applyUpdate c3Base {} 9).estimated_duration_hours = c3Base.estimated_duration_hours ∧
    (applyUpdate c3Base {} 9).learning_objectives = c3Base.learning_objectives ∧
    (applyUpdate c3Base {} 9).prerequisites = c3Base.prerequisites ∧
    (applyUpdate c3Base {} 9).tags = c3Base.tags ∧
    (applyUpdate c3Base {} 9).generation_status = c3Base.generation_status :=
  ⟨(c3_update_frame c3Base c3FullUpdate 9).2.2.2.2.2.1 "New" rfl,
   (c3_update_frame c3Base c3FullUpdate 9).2.2.2.2.2.2.2.1 "new d" rfl,
   (c3_update_frame c3Base c3FullUpdate 9).2.2.2.2.2.2.2.2.2.1 .ADVANCED rfl,
   (c3_update_frame c3Base c3FullUpdate 9).2.2.2.2.2.2.2.2.2.2.2.1 99 rfl,
   (c3_update_frame c3Base c3FullUpdate 9).2.2.2.2.2.2.2.2.2.2.2.2.2.1 ([] : List String) rfl,
   (c3_update_frame c3Base c3FullUpdate 9).2.2.2.2.2.2.2.2.2.2.2.2.2.2.2.1 ["p2"] rfl,
   (c3_update_frame c3Base c3FullUpdate 9).2.2.2.2.2.2.2.2.2.2.2.2.2.2.2.2.2.1 ["t2"] rfl,
   (c3_update_frame c3Base c3FullUpdate 9).2.2.2.2.2.2.2.2.2.2.2.2.2.2.2.2.2.2.2 .COMPLETED rfl,
   (c3_update_frame c3Base c3FullUpdate 9).1,
   (c3_update_frame c3Base c3FullUpdate 9).2.1,
   (c3_update_frame c3Base c3FullUpdate 9).2.2.1,
   (c3_update_frame c3Base c3FullUpdate 9).2.2.2.1,
   (c3_update_frame c3Base {} 9).2.2.2.2.1 rfl,
   (c3_update_frame c3Base {} 9).2.2.2.2.2.2.1 rfl,
   (c3_update_frame c3Base {} 9).2.2.2.2.2.2.2.2.1 rfl,
   (c3_update_frame c3Base {} 9).2.2.2.2.2.2.2.2.2.2.1 rfl,
   (c3_update_frame c3Base {} 9).2.2.2.2.2.2.2.2.2.2.2.2.1 rfl,
   (c3_update_frame c3Base {} 9).2.2.2.2.2.2.2.2.2.2.2.2.2.2.1 rfl,
   (c3_update_frame c3Base {} 9).2.2.2.2.2.2.2.2.2.2.2.2.2.2.2.2.1 rfl,
   (c3_update_frame c3Base {} 9).2.2.2.2.2.2.2.2.2.2.2.2.2.2.2.2.2.2.1 rfl⟩

/-- C4: for every create shape, omitting a required field (one with no
declared default) makes construction fail, while supplying only the
required fields yields exactly the documented defaults: empty lists,
`DifficultyLevel.BEGINNER`, 40 hours for a bootcamp, 8 for a course,
60 minutes for a lesson, `TEXT` material, 70% passing / 3 attempts for a
quiz, 1 point / `MULTIPLE_CHOICE` for a question. -/
theorem c4_create_defaults :
    (∀ p : BootcampCreatePayload, BootcampCreate.construct { p with title := none } = none) ∧
    (∀ p : BootcampCreatePayload, BootcampCreate.construct { p with topic := none } = none) ∧
    (∀ (t tp : String), t.length ≤ 200 → tp.length ≤ 100 →
       BootcampCreate.construct { title := some t, topic := some tp } =
       some { title := t, topic := tp, description := "", difficulty_level := .BEGINNER, estimated_duration_hours := 40, learning_objectives := [], prerequisites := [], tags := [], generation_prompt := "" }) ∧
    (∀ p : CourseCreatePayload, CourseCreate.construct { p with bootcamp_id := none } = none) ∧
    (∀ p : CourseCreatePayload, CourseCreate.construct { p with title := none } = none) ∧
    (∀ p : CourseCreatePayload, CourseCreate.construct { p with order_index := none } = none) ∧
    (∀ (i : Nat) (t : String) (oi : Int), t.length ≤ 200 → 0 ≤ oi →
       CourseCreate.construct { bootcamp_id := some i, title := some t, order_index := some oi } =
       some { bootcamp_id := i, title := t, description := "", order_index := oi, estimated_duration_hours := 8, learning_outcomes := [] }) ∧
    (∀ p : LessonCreatePayload, LessonCreate.construct { p with course_id := none } = none) ∧
    (∀ p : LessonCreatePayload, LessonCreate.construct { p with title := none } = none) ∧
    (∀ p : LessonCreatePayload, LessonCreate.construct { p with order_index := none } = none) ∧
    (∀ (i : Nat) (t : String) (oi : Int), t.length ≤ 200 → 0 ≤ oi →
       LessonCreate.construct { course_id := some i, title := some t, order_index := some oi } =
       some { course_id := i, title := t, content := "", summary := "", order_index := oi, estimated_duration_minutes := 60, key_concepts := [] }) ∧
    (∀ p : LearningMaterialCreatePayload, LearningMaterialCreate.construct { p with lesson_id := none } = none) ∧
    (∀ p : LearningMaterialCreatePayload, LearningMaterialCreate.construct { p with title := none } = none) ∧
    (∀ p : LearningMaterialCreatePayload, LearningMaterialCreate.construct { p with order_index := none } = none) ∧
    (∀ (i : Nat) (t : String) (oi : Int), t.length ≤ 200 → 0 ≤ oi →
       LearningMaterialCreate.construct { lesson_id := some i, title := some t, order_index := some oi } =
       some { lesson_id := i, title := t, description := "", material_type := .TEXT, content := "", url := none, file_path := none, order_index := oi, material_metadata := [] }) ∧
    (∀ p : QuizCreatePayload, QuizCreate.construct { p with title := none } = none) ∧
    (∀ p : QuizCreatePayload, QuizCreate.construct { p with order_index := none } = none) ∧
    (∀ (t : String) (oi : Int), t.length ≤ 200 → 0 ≤ oi →
       QuizCreate.construct { title := some t, order_index := some oi } =
       some { lesson_id := none, bootcamp_id := none, title := t, description := "", is_exam := false, time_limit_minutes := none, passing_score_percentage := 70, max_attempts := 3, order_index := oi }) ∧
    (∀ p : QuestionCreatePayload, QuestionCreate.construct { p with quiz_id := none } = none) ∧
    (∀ p : QuestionCreatePayload, QuestionCreate.construct { p with question_text := none } = none) ∧
    (∀ p : QuestionCreatePayload, QuestionCreate.construct { p with order_index := none } = none) ∧
    (∀ (i : Nat) (t : String) (oi : Int), t.length ≤ 2000 → 0 ≤ oi →
       QuestionCreate.construct { quiz_id := some i, question_text := some t, order_index := some oi } =
       some { quiz_id := i, question_text := t, question_type := .MULTIPLE_CHOICE, options := [], correct_answers := [], explanation := "", points := 1, order_index := oi, difficulty_level := .BEGINNER, tags := [] }) := by
  refine ⟨?_, ?_, ?_, ?_, ?_, ?_, ?_, ?_, ?_, ?_, ?_, ?_, ?_, ?_, ?_, ?_, ?_, ?_, ?_, ?_, ?_, ?_⟩
  · intro p; simp [BootcampCreate.construct, BootcampCreate.parse]
  · intro p; simp [BootcampCreate.construct, BootcampCreate.parse]
  · intros
    simp only [BootcampCreate.construct, BootcampCreate.parse, Option.pure_def, Option.some_bind, Option.bind_eq_bind]
    split
    · rfl
    · next hneg =>
        exact absurd (by and_intros <;> first | assumption | simp) hneg
  · intro p; simp [CourseCreate.construct, CourseCreate.parse]
  · intro p; simp [CourseCreate.construct, CourseCreate.parse]
  · intro p; simp [CourseCreate.construct, CourseCreate.parse]
  · intros
    simp only [CourseCreate.construct, CourseCreate.parse, Option.pure_def, Option.some_bind, Option.bind_eq_bind]
    split
    · rfl
    · next hneg =>
        exact absurd (by and_intros <;> first | assumption | simp) hneg
  · intro p; simp [LessonCreate.construct, LessonCreate.parse]
  · intro p; simp [LessonCreate.construct, LessonCreate.parse]
  · intro p; simp [LessonCreate.construct, LessonCreate.parse]
  · intros
    simp only [LessonCreate.construct, LessonCreate.parse, Option.pure_def, Option.some_bind, Option.bind_eq_bind]
    split
    · rfl
    · next hneg =>
        exact absurd (by and_intros <;> first | assumption | simp) hneg
  · intro p; simp [LearningMaterialCreate.construct, LearningMaterialCreate.parse]
  · intro p; simp [LearningMaterialCreate.construct, LearningMaterialCreate.parse]
  · intro p; simp [LearningMaterialCreate.construct, LearningMaterialCreate.parse]
  · intros
    simp only [LearningMaterialCreate.construct, LearningMaterialCreate.parse, Option.pure_def, Option.some_bind, Option.bind_eq_bind]
    split
    · rfl
    · next hneg =>
        exact absurd (by and_intros <;> first | assumption | simp) hneg
  · intro p; simp [QuizCreate.construct, QuizCreate.parse]
  · intro p; simp [QuizCreate.construct, QuizCreate.parse]
  · intros
    simp only [QuizCreate.construct, QuizCreate.parse, Option.pure_def, Option.some_bind, Option.bind_eq_bind]
    split
    · rfl
    · next hneg =>
        exact absurd (by and_intros <;> first | assumption | simp) hneg
  · intro p; simp [QuestionCreate.construct, QuestionCreate.parse]
  · intro p; simp [QuestionCreate.construct, QuestionCreate.parse]
  · intro p; simp [QuestionCreate.construct, QuestionCreate.parse]
  · intros
    simp only [QuestionCreate.construct, QuestionCreate.parse, Option.pure_def, Option.some_bind, Option.bind_eq_bind]
    split
    · rfl
    · next hneg =>
        exact absurd (by and_intros <;> first | assumption | simp) hneg

/-- C4 instantiated: each minimal payload constructs with the documented
defaults. -/
theorem c4_create_defaults_witness :
    (BootcampCreate.construct { title := some "B", topic := some "T" } =
     some { title := "B", topic := "T", description := "", difficulty_level := .BEGINNER, estimated_duration_hours := 40, learning_objectives := [], prerequisites := [], tags := [], generation_prompt := "" }) ∧
    (CourseCreate.construct { bootcamp_id := some 1, title := some "C", order_index := some 0 } =
     some { bootcamp_id := 1, title := "C", description := "", order_index := 0, estimated_duration_hours := 8, learning_outcomes := [] }) ∧
    (LessonCreate.construct { course_id := some 1, title := some "L", order_index := some 0 } =
     some { course_id := 1, title := "L", content := "", summary := "", order_index := 0, estimated_duration_minutes := 60, key_concepts := [] }) ∧
    (LearningMaterialCreate.construct { lesson_id := some 1, title := some "M", order_index := some 0 } =
     some { lesson_id := 1, title := "M", description := "", material_type := .TEXT, content := "", url := none, file_path := none, order_index := 0, material_metadata := [] }) ∧
    (QuizCreate.construct { title := some "Q", order_index := some 0 } =
     some { lesson_id := none, bootcamp_id := none, title := "Q", description := "", is_exam := false, time_limit_minutes := none, passing_score_percentage := 70, max_attempts := 3, order_index := 0 }) ∧
    (QuestionCreate.construct { quiz_id := some 1, question_text := some "?", order_index := some 0 } =
     some { quiz_id := 1, question_text := "?", question_type := .MULTIPLE_CHOICE, options := [], correct_answers := [], explanation := "", points := 1, order_index := 0, difficulty_level := .BEGINNER, tags := [] }) :=
  ⟨c4_create_defaults.2.2.1 "B" "T" (by decide) (by decide),
   c4_create_defaults.2.2.2.2.2.2.1 1 "C" 0 (by decide) (by decide),
   c4_create_defaults.2.2.2.2.2.2.2.2.2.2.1 1 "L" 0 (by decide) (by decide),
   c4_create_defaults.2.2.2.2.2.2.2.2.2.2.2.2.2.2.1 1 "M" 0 (by decide) (by decide),
   c4_create_defaults.2.2.2.2.2.2.2.2.2.2.2.2.2.2.2.2.2.1 "Q" 0 (by decide) (by decide),
   c4_create_defaults.2.2.2.2.2.2.2.2.2.2.2.2.2.2.2.2.2.2.2.2.2 1 "?" 0 (by decide) (by decide)⟩

/-- C5: the schema never inspects a quiz's two parent ids: validity of a
`Quiz` or `QuizCreate` is invariant under any assignment of `lesson_id` and
`bootcamp_id` (both set, neither set, or any mix), and concretely a quiz
with both parents set and one with neither set pass validation. -/
theorem c5_quiz_parent_unenforced :
    (∀ (q : Quiz) (l b l' b' : Option Nat),
       ({ q with lesson_id := l, bootcamp_id := b } : Quiz).valid ↔
       ({ q with lesson_id := l', bootcamp_id := b' } : Quiz).valid) ∧
    (∀ (c : QuizCreate) (l b l' b' : Option Nat),
       ({ c with lesson_id := l, bootcamp_id := b } : QuizCreate).valid ↔
       ({ c with lesson_id := l', bootcamp_id := b' } : QuizCreate).valid) ∧
    ({ w6Quiz with lesson_id := some 4, bootcamp_id := some 1 } : Quiz).valid ∧
    ({ w6Quiz with lesson_id := none, bootcamp_id := none } : Quiz).valid ∧
    ({ gQuizC with lesson_id := some 4, bootcamp_id := some 1 } : QuizCreate).valid ∧
    ({ gQuizC with lesson_id := none, bootcamp_id := none } : QuizCreate).valid :=
  ⟨fun _ _ _ _ _ => Iff.rfl, fun _ _ _ _ _ => Iff.rfl,
   by decide, by decide, by decide, by decide⟩

/-- C6: the spec's worked example — bootcamp (40 h), course (order 0),
lesson (order 0), quiz attached to the lesson with bootcamp unset, question
worth 1 point — every insert succeeds, and the projections report
`lessons_count = 1` for the course and `quizzes_count = 1` for the lesson. -/
theorem c6_scenario_succeeds :
    c6Scenario.isSome = true ∧
    (c6Scenario.bind fun db =>
      (db.courses.head?.bind (courseWithLessonsResponse db))).map (·.lessons_count) = some 1 ∧
    (c6Scenario.bind fun db =>
      (db.lessons.head?.bind (lessonDetailResponse db))).map (·.quizzes_count) = some 1 := by
  decide

/-- C8: the bootcamp projection is independent of `generation_prompt` —
changing only that field leaves the `BootcampResponse` unchanged, because
the response shape carries no such field. -/
theorem c8_response_independent_of_prompt (b : Bootcamp) (p : String) :
    bootcampResponse { b with generation_prompt := p } = bootcampResponse b := rfl

/-- C9: an update carrying any `generation_status` value passes validation,
and applying it always leaves the bootcamp in exactly that status — no
restriction tied to the pending → generating → completed/failed progression
exists in the schema, so every transition (backwards ones included) is
representable. -/
theorem c9_status_any_transition (b : Bootcamp) (s : GenerationStatus) (now : Datetime) :
    ({ generation_status := some s } : BootcampUpdate).valid ∧
    (applyUpdate b { generation_status := some s } now).generation_status = s ∧
    (∀ (db : DB) (bid : Nat),
       (updateBootcamp db bid { generation_status := some s } now).isSome = true) := by
  have hval : ({ generation_status := some s } : BootcampUpdate).valid := by
    refine ⟨?_, ?_, ?_⟩ <;> (intro x hx; simp at hx)
  refine ⟨hval, rfl, ?_⟩
  intro db bid
  simp only [updateBootcamp]
  rw [if_pos hval]
  rfl

/-- C7: every projection renders its timestamps as text
(`renderDatetime`), and every child-count field equals the size of the
corresponding child collection of the store at the moment of projection. -/
theorem c7_projection_contract (db : DB) :
    (∀ (b : Bootcamp) (r : BootcampResponse), bootcampResponse b = some r →
       r.created_at = renderDatetime b.created_at ∧
       r.updated_at = renderDatetime b.updated_at) ∧
    (∀ (c : Course) (r : CourseWithLessonsResponse),
       courseWithLessonsResponse db c = some r →
       c.id = some r.id ∧ r.lessons_count = (db.lessonsOf r.id).length) ∧
    (∀ (l : Lesson) (r : LessonDetailResponse), lessonDetailResponse db l = some r →
       l.id = some r.id ∧ r.materials_count = (db.materialsOf r.id).length ∧
       r.quizzes_count = (db.quizzesOf r.id).length) := by
  refine ⟨?_, ?_, ?_⟩
  · intro b r h
    simp only [bootcampResponse, Option.map_eq_some'] at h
    obtain ⟨i, hi, hr⟩ := h
    subst hr
    exact ⟨rfl, rfl⟩
  · intro c r h
    simp only [courseWithLessonsResponse, Option.map_eq_some'] at h
    obtain ⟨i, hi, hr⟩ := h
    subst hr
    exact ⟨hi, rfl⟩
  · intro l r h
    simp only [lessonDetailResponse, Option.map_eq_some'] at h
    obtain ⟨i, hi, hr⟩ := h
    subst hr
    exact ⟨hi, rfl, rfl⟩

/-- C7 instantiated on the projections of the stored bootcamp 2, course 3
and lesson 4 of `c1WitnessDb`. -/
theorem c7_projection_contract_witness :
    (c7BootcampResp.created_at = renderDatetime w2Bootcamp.created_at ∧
     c7BootcampResp.updated_at = renderDatetime w2Bootcamp.updated_at) ∧
    (w3Course.id = some c7CourseResp.id ∧
     c7CourseResp.lessons_count = (c1WitnessDb.lessonsOf c7CourseResp.id).length) ∧
    (w4Lesson.id = some c7LessonResp.id ∧
     c7LessonResp.materials_count = (c1WitnessDb.materialsOf c7LessonResp.id).length ∧
     c7LessonResp.quizzes_count = (c1WitnessDb.quizzesOf c7LessonResp.id).length) :=
  ⟨(c7_projection_contract c1WitnessDb).1 w2Bootcamp c7BootcampResp (Option.some_get _).symm,
   (c7_projection_contract c1WitnessDb).2.1 w3Course c7CourseResp (Option.some_get _).symm,
   (c7_projection_contract c1WitnessDb).2.2 w4Lesson c7LessonResp (Option.some_get _).symm⟩

/-- C10: uniformly across Bootcamp, Course, Lesson, LearningMaterial and
Quiz (persistent and create shapes alike), the title field is required —
omitting it from a create payload fails construction — and is bounded by
the same maximum of 200 characters: a title over 200 characters fails
validation, and replacing the title of a valid record by any title of at
most 200 characters keeps it valid. -/
theorem c10_title_uniform :
    (∀ p : BootcampCreatePayload, BootcampCreate.construct { p with title := none } = none) ∧
    (∀ p : CourseCreatePayload, CourseCreate.construct { p with title := none } = none) ∧
    (∀ p : LessonCreatePayload, LessonCreate.construct { p with title := none } = none) ∧
    (∀ p : LearningMaterialCreatePayload, LearningMaterialCreate.construct { p with title := none } = none) ∧
    (∀ p : QuizCreatePayload, QuizCreate.construct { p with title := none } = none) ∧
    (∀ x : Bootcamp, 200 < x.title.length → ¬ x.valid) ∧
    (∀ (x : Bootcamp) (t : String), x.valid → t.length ≤ 200 →
       ({ x with title := t } : Bootcamp).valid) ∧
    (∀ x : BootcampCreate, 200 < x.title.length → ¬ x.valid) ∧
    (∀ (x : BootcampCreate) (t : String), x.valid → t.length ≤ 200 →
       ({ x with title := t } : BootcampCreate).valid) ∧
    (∀ x : Course, 200 < x.title.length → ¬ x.valid) ∧
    (∀ (x : Course) (t : String), x.valid → t.length ≤ 200 →
       ({ x with title := t } : Course).valid) ∧
    (∀ x : CourseCreate, 200 < x.title.length → ¬ x.valid) ∧
    (∀ (x : CourseCreate) (t : String), x.valid → t.length ≤ 200 →
       ({ x with title := t } : CourseCreate).valid) ∧
    (∀ x : Lesson, 200 < x.title.length → ¬ x.valid) ∧
    (∀ (x : Lesson) (t : String), x.valid → t.length ≤ 200 →
       ({ x with title := t } : Lesson).valid) ∧
    (∀ x : LessonCreate, 200 < x.title.length → ¬ x.valid) ∧
    (∀ (x : LessonCreate) (t : String), x.valid → t.length ≤ 200 →
       ({ x with title := t } : LessonCreate).valid) ∧
    (∀ x : LearningMaterial, 200 < x.title.length → ¬ x.valid) ∧
    (∀ (x : LearningMaterial) (t : String), x.valid → t.length ≤ 200 →
       ({ x with title := t } : LearningMaterial).valid) ∧
    (∀ x : LearningMaterialCreate, 200 < x.title.length → ¬ x.valid) ∧
    (∀ (x : LearningMaterialCreate) (t : String), x.valid → t.length ≤ 200 →
       ({ x with title := t } : LearningMaterialCreate).valid) ∧
    (∀ x : Quiz, 200 < x.title.length → ¬ x.valid) ∧
    (∀ (x : Quiz) (t : String), x.valid → t.length ≤ 200 →
       ({ x with title := t } : Quiz).valid) ∧
    (∀ x : QuizCreate, 200 < x.title.length → ¬ x.valid) ∧
    (∀ (x : QuizCreate) (t : String), x.valid → t.length ≤ 200 →
       ({ x with title := t } : QuizCreate).valid) := by
  refine ⟨?_, ?_, ?_, ?_, ?_, ?_, ?_, ?_, ?_, ?_, ?_, ?_, ?_, ?_, ?_, ?_, ?_, ?_, ?_, ?_, ?_, ?_, ?_, ?_, ?_⟩
  · intro p; simp [BootcampCreate.construct, BootcampCreate.parse]
  · intro p; simp [CourseCreate.construct, CourseCreate.parse]
  · intro p; simp [LessonCreate.construct, LessonCreate.parse]
  · intro p; simp [LearningMaterialCreate.construct, LearningMaterialCreate.parse]
  · intro p; simp [QuizCreate.construct, QuizCreate.parse]
  · rintro x h ⟨h1, -, -, -, -, -⟩; omega
  · rintro x t ⟨h1, h2, h3, h4, h5, h6⟩ ht; exact ⟨ht, h2, h3, h4, h5, h6⟩
  · rintro x h ⟨h1, -, -, -, -, -⟩; omega
  · rintro x t ⟨h1, h2, h3, h4, h5, h6⟩ ht; exact ⟨ht, h2, h3, h4, h5, h6⟩
  · rintro x h ⟨h1, -, -, -, -⟩; omega
  · rintro x t ⟨h1, h2, h3, h4, h5⟩ ht; exact ⟨ht, h2, h3, h4, h5⟩
  · rintro x h ⟨h1, -, -, -, -⟩; omega
  · rintro x t ⟨h1, h2, h3, h4, h5⟩ ht; exact ⟨ht, h2, h3, h4, h5⟩
  · rintro x h ⟨h1, -, -, -, -⟩; omega
  · rintro x t ⟨h1, h2, h3, h4, h5⟩ ht; exact ⟨ht, h2, h3, h4, h5⟩
  · rintro x h ⟨h1, -, -, -, -⟩; omega
  · rintro x t ⟨h1, h2, h3, h4, h5⟩ ht; exact ⟨ht, h2, h3, h4, h5⟩
  · rintro x h ⟨h1, -, -, -, -⟩; omega
  · rintro x t ⟨h1, h2, h3, h4, h5⟩ ht; exact ⟨ht, h2, h3, h4, h5⟩
  · rintro x h ⟨h1, -, -, -, -⟩; omega
  · rintro x t ⟨h1, h2, h3, h4, h5⟩ ht; exact ⟨ht, h2, h3, h4, h5⟩
  · rintro x h ⟨h1, -, -, -, -, -, -, -⟩; omega
  · rintro x t ⟨h1, h2, h3, h4, h5, h6, h7, h8⟩ ht; exact ⟨ht, h2, h3, h4, h5, h6, h7, h8⟩
  · rintro x h ⟨h1, -, -, -, -, -, -, -⟩; omega
  · rintro x t ⟨h1, h2, h3, h4, h5, h6, h7, h8⟩ ht; exact ⟨ht, h2, h3, h4, h5, h6, h7, h8⟩

set_option maxRecDepth 4000 in
/-- C10 instantiated: for each of the ten shapes, a 201-character title is
rejected and a short replacement title on a valid record is accepted. -/
theorem c10_title_uniform_witness :
    (¬ ({ w2Bootcamp with title := longTitle } : Bootcamp).valid) ∧
    (({ w2Bootcamp with title := "T2" } : Bootcamp).valid) ∧
    (¬ ({ gBootcampC with title := longTitle } : BootcampCreate).valid) ∧
    (({ gBootcampC with title := "T2" } : BootcampCreate).valid) ∧
    (¬ ({ w3Course with title := longTitle } : Course).valid) ∧
    (({ w3Course with title := "T2" } : Course).valid) ∧
    (¬ ({ gCourseC with title := longTitle } : CourseCreate).valid) ∧
    (({ gCourseC with title := "T2" } : CourseCreate).valid) ∧
    (¬ ({ w4Lesson with title := longTitle } : Lesson).valid) ∧
    (({ w4Lesson with title := "T2" } : Lesson).valid) ∧
    (¬ ({ gLessonC with title := longTitle } : LessonCreate).valid) ∧
    (({ gLessonC with title := "T2" } : LessonCreate).valid) ∧
    (¬ ({ w5Material with title := longTitle } : LearningMaterial).valid) ∧
    (({ w5Material with title := "T2" } : LearningMaterial).valid) ∧
    (¬ ({ gMaterialC with title := longTitle } : LearningMaterialCreate).valid) ∧
    (({ gMaterialC with title := "T2" } : LearningMaterialCreate).valid) ∧
    (¬ ({ w6Quiz with title := longTitle } : Quiz).valid) ∧
    (({ w6Quiz with title := "T2" } : Quiz).valid) ∧
    (¬ ({ gQuizC with title := longTitle } : QuizCreate).valid) ∧
    (({ gQuizC with title := "T2" } : QuizCreate).valid) :=
  ⟨c10_title_uniform.2.2.2.2.2.1 { w2Bootcamp with title := longTitle } (by decide),
   c10_title_uniform.2.2.2.2.2.2.1 w2Bootcamp "T2" (by decide) (by decide),
   c10_title_uniform.2.2.2.2.2.2.2.1 { gBootcampC with title := longTitle } (by decide),
   c10_title_uniform.2.2.2.2.2.2.2.2.1 gBootcampC "T2" (by decide) (by decide),
   c10_title_uniform.2.2.2.2.2.2.2.2.2.1 { w3Course with title := longTitle } (by decide),
   c10_title_uniform.2.2.2.2.2.2.2.2.2.2.1 w3Course "T2" (by decide) (by decide),
   c10_title_uniform.2.2.2.2.2.2.2.2.2.2.2.1 { gCourseC with title := longTitle } (by decide),
   c10_title_uniform.2.2.2.2.2.2.2.2.2.2.2.2.1 gCourseC "T2" (by decide) (by decide),
   c10_title_uniform.2.2.2.2.2.2.2.2.2.2.2.2.2.1 { w4Lesson with title := longTitle } (by decide),
   c10_title_uniform.2.2.2.2.2.2.2.2.2.2.2.2.2.2.1 w4Lesson "T2" (by decide) (by decide),
   c10_title_uniform.2.2.2.2.2.2.2.2.2.2.2.2.2.2.2.1 { gLessonC with title := longTitle } (by decide),
   c10_title_uniform.2.2.2.2.2.2.2.2.2.2.2.2.2.2.2.2.1 gLessonC "T2" (by decide) (by decide),
   c10_title_uniform.2.2.2.2.2.2.2.2.2.2.2.2.2.2.2.2.2.1 { w5Material with title := longTitle } (by decide),
   c10_title_uniform.2.2.2.2.2.2.2.2.2.2.2.2.2.2.2.2.2.2.1 w5Material "T2" (by decide) (by decide),
   c10_title_uniform.2.2.2.2.2.2.2.2.2.2.2.2.2.2.2.2.2.2.2.1 { gMaterialC with title := longTitle } (by decide),
   c10_title_uniform.2.2.2.2.2.2.2.2.2.2.2.2.2.2.2.2.2.2.2.2.1 gMaterialC "T2" (by decide) (by decide),
   c10_title_uniform.2.2.2.2.2.2.2.2.2.2.2.2.2.2.2.2.2.2.2.2.2.1 { w6Quiz with title := longTitle } (by decide),
   c10_title_uniform.2.2.2.2.2.2.2.2.2.2.2.2.2.2.2.2.2.2.2.2.2.2.1 w6Quiz "T2" (by decide) (by decide),
   c10_title_uniform.2.2.2.2.2.2.2.2.2.2.2.2.2.2.2.2.2.2.2.2.2.2.2.1 { gQuizC with title := longTitle } (by decide),
   c10_title_uniform.2.2.2.2.2.2.2.2.2.2.2.2.2.2.2.2.2.2.2.2.2.2.2.2 gQuizC "T2" (by decide) (by decide)⟩
